import Mathlib

/-!
Verification of the call-signature resolution and code-generation pipeline
of the kernelfunctions package: a shallow embedding, in Lean 4, of the
binding engine (`core/boundvariable.py`), the call-data pipeline
(`calldata.py`) and the call cache (`function.py`), together with proofs
of the behavioural properties stated in the specification.
-/

namespace KernelFunctions

/-- Embeds `AccessType` from `core/native`: per-prim access mode of a bound variable. -/
inductive AccessType where
  | none
  | read
  | write
  | readwrite
deriving DecidableEq, Repr

/-- Embeds `CallMode` from `core/native`: which kernel variant a call targets. -/
inductive CallMode where
  | prim
  | bwds
  | fwds
deriving DecidableEq, Repr

/-- Embeds `IOType` from `core/enums`: kernel parameter direction (`inn` is `in`). -/
inductive IOType where
  | inn
  | out
  | inout
deriving DecidableEq, Repr

/-- Embeds `PrimType` from `core/enums`: index into the (primal, derivative) access pair. -/
inductive PrimType where
  | primal
  | derivative
deriving DecidableEq, Repr

/-- The per-node state of `BoundVariable` that the differentiability / access
computation reads and writes: the slang-side modifiers and type availability,
the python-side differentiability report, and the derived fields. -/
structure BVNode where
  slang_io_type : IOType
  slang_no_diff : Bool
  slang_derivative : Option String
  python_differentiable : Bool
  differentiable : Bool
  access : AccessType × AccessType
deriving DecidableEq, Repr

/-- Embeds `BoundVariable._calculate_differentiability` (boundvariable.py
lines 202-238): computes the (primal, derivative) access pair from the call
mode, the node's `differentiable` flag and the slang io type.  The source's
`else` branches cover `IOType.inn`. -/
def BVNode.calculateDifferentiabilityAccess (v : BVNode) (mode : CallMode) : BVNode :=
  if mode = CallMode.prim then
    if v.differentiable then
      if v.slang_io_type = IOType.inout then
        { v with access := (AccessType.readwrite, AccessType.none) }
      else if v.slang_io_type = IOType.out then
        { v with access := (AccessType.write, AccessType.none) }
      else
        { v with access := (AccessType.read, AccessType.none) }
    else
      if v.slang_io_type = IOType.inout then
        { v with access := (AccessType.readwrite, AccessType.none) }
      else if v.slang_io_type = IOType.out then
        { v with access := (AccessType.write, AccessType.none) }
      else
        { v with access := (AccessType.read, AccessType.none) }
  else if mode = CallMode.bwds then
    if v.differentiable then
      if v.slang_io_type = IOType.inout then
        { v with access := (AccessType.read, AccessType.readwrite) }
      else if v.slang_io_type = IOType.out then
        { v with access := (AccessType.none, AccessType.read) }
      else
        { v with access := (AccessType.read, AccessType.write) }
    else
      if v.slang_io_type = IOType.inout then
        { v with access := (AccessType.read, AccessType.none) }
      else if v.slang_io_type = IOType.out then
        { v with access := (AccessType.none, AccessType.none) }
      else
        { v with access := (AccessType.read, AccessType.none) }
  else
    { v with access := (AccessType.none, AccessType.none) }

/-- Embeds the per-node part of `BoundVariable.calculate_differentiability`
(boundvariable.py lines 169-176): first decides the `differentiable` flag
(`not slang.no_diff and slang.derivative is not None and python.differentiable`),
then computes the access pair; the source then recurses into children,
applying this same computation at every node. -/
def BVNode.calculateDifferentiability (v : BVNode) (mode : CallMode) : BVNode :=
  let v := { v with
    differentiable := !v.slang_no_diff && v.slang_derivative.isSome && v.python_differentiable }
  v.calculateDifferentiabilityAccess mode

/-- The per-node state read and written by the mapping phases of
`BoundVariable`: the python variable's vector mapping (`Option.none` models an
invalid `Shape`, `some m` a valid one with entries `m`; python ints, hence
`Int`), and the node's call-dimensionality contribution (`Option.none` models
python `None`). -/
structure MapNodeState where
  call_dimensionality : Option Nat
  vector_mapping : Option (List Int)
deriving DecidableEq, Repr

/-- Embeds `BoundVariable._finalize_mappings` (boundvariable.py lines
158-167): if the node's call dimensionality is still `None` it becomes the
context's overall call dimensionality; if the vector mapping is not valid, a
default is built by appending `context.call_dimensionality - i - 1` for
`i` in `range(self.call_dimensionality)` and reversing. -/
def finalizeMappingsNode (ctxCallDim : Nat) (s : MapNodeState) : MapNodeState :=
  let cd : Nat :=
    match s.call_dimensionality with
    | Option.none => ctxCallDim
    | some k => k
  let vm : Option (List Int) :=
    match s.vector_mapping with
    | some m => some m
    | Option.none =>
        some (((List.range cd).map (fun i : Nat => (ctxCallDim : Int) - i - 1)).reverse)
  { call_dimensionality := some cd, vector_mapping := vm }

/-- Python's `max` over a non-empty sequence of naturals (mapping entries are
call-shape dimension indices, hence non-negative). -/
def listMax : List Nat → Nat
  | [] => 0
  | [x] => x
  | x :: y :: rest => Nat.max x (listMax (y :: rest))

/-- The per-node state read and written by
`BoundVariable._apply_implicit_vectorization`, over an abstract slang/host
type universe `Ty`. -/
structure IVState (Ty : Type) where
  vector_mapping : Option (List Nat)
  vector_type : Option Ty
  call_dimensionality : Option Nat
  path : String
deriving DecidableEq, Repr

/-- Embeds `BoundVariable._apply_implicit_vectorization` (boundvariable.py
lines 113-147).  The host type's methods `reduce_type`, `resolve_type` and
`resolve_dimensionality` (defined per concrete host-value kind, outside this
module) are taken as parameters; `slangPrimal` is `self.slang.primal`.
Python `assert` failures and exceptions become `Except.error`. -/
def applyImplicitVectorizationNode {Ty : Type} (slangPrimal : Ty)
    (reduceType : Nat → Option Ty) (resolveType : Ty → Option Ty)
    (resolveDimensionality : Ty → Nat) (s : IVState Ty) :
    Except String (IVState Ty) := do
  -- if self.python.vector_mapping.valid: vector_type = primal.reduce_type(len(mapping))
  let vt1 : Option Ty :=
    match s.vector_mapping with
    | some m => reduceType m.length
    | Option.none => s.vector_type
  -- if vector_type is not None: pass / elif path == '_result': pass / else resolve
  let vt2 : Option Ty :=
    match vt1 with
    | some t => some t
    | Option.none =>
        if s.path = "_result" then Option.none
        else resolveType slangPrimal
  -- if not mapping.valid and vector_type is None: assert path == '_result'; use slang type
  let vt3 : Option Ty ←
    if s.vector_mapping.isNone && vt2.isNone then
      if s.path = "_result" then pure (some slangPrimal)
      else throw "assertion failed: self.path is not _result"
    else pure vt2
  -- dimensionality: max(mapping)+1 / 0 / primal.resolve_dimensionality(vector_type)
  let cd : Nat ←
    match s.vector_mapping with
    | some m =>
        if m.length > 0 then pure (listMax m + 1) else pure 0
    | Option.none =>
        match vt3 with
        | some t => pure (resolveDimensionality t)
        | Option.none => throw "assertion failed: vector_type is None"
  pure { s with vector_type := vt3, call_dimensionality := some cd }

/-- One fragment emitted by `BoundVariable.gen_call_data_code`: the per-type
call-data record, the `_m_` mapping constant (array or scalar form), and the
top-level call-data declaration. -/
inductive EmitItem where
  | calldata (varName : String)
  | mappingArray (varName : String) (mapping : List Nat)
  | mappingScalar (varName : String)
  | rootDeclare (varName : String)
deriving DecidableEq, Repr

/-- Embeds the leaf branch of `BoundVariable.gen_call_data_code`
(boundvariable.py lines 301-321): the writability check (which raises only
when `depth == 0`), then `gen_calldata`, the `_m_` mapping constant, and at
depth 0 the call-data declaration. -/
def genCallDataCodeLeaf (access0 : AccessType) (writable : Bool)
    (vectorMapping : List Nat) (varName : String) (depth : Nat) :
    Except String (List EmitItem) := do
  if (access0 = AccessType.write ∨ access0 = AccessType.readwrite) ∧ writable = false then
    if depth = 0 then
      throw "Cannot read back value for non-writable type"
  pure ([EmitItem.calldata varName] ++
    (if vectorMapping.length > 0 then [EmitItem.mappingArray varName vectorMapping]
     else [EmitItem.mappingScalar varName]) ++
    (if depth = 0 then [EmitItem.rootDeclare varName] else []))

/-- Embeds `ENABLE_CALLDATA_CACHE` from function.py line 13. -/
def ENABLE_CALLDATA_CACHE : Bool := true

/-- Embeds the `CALL_DATA_CACHE` lookup: python `sig in CALL_DATA_CACHE` /
`CALL_DATA_CACHE[sig]` on the dict, modelled as first match in an
association list (insertions prepend; keys are unique in a dict, so first
match is the dict's entry). -/
def cacheLookup {C : Type} : List (String × C) → String → Option C
  | [], _ => Option.none
  | (k, v) :: rest, sig => if k = sig then some v else cacheLookup rest sig

/-- Embeds `FunctionChainBase._build_call_data` (function.py lines 65-91):
compute the structural signature, return the cached `CallData` when the
cache is enabled and has the signature, otherwise run the construction
pipeline (`CallData(chain, *args, **kwargs)`, here the abstract `construct`)
and, on success only, insert the result into the cache.  A raised exception
propagates before the insertion, leaving the cache unchanged.  Returns the
result together with the new cache state. -/
def buildCallData {A C E : Type} (hashSig : A → String)
    (construct : A → Except E C) (cache : List (String × C)) (args : A) :
    Except E C × List (String × C) :=
  match (if ENABLE_CALLDATA_CACHE then cacheLookup cache (hashSig args) else Option.none) with
  | some cd => (Except.ok cd, cache)
  | Option.none =>
      match construct args with
      | Except.error e => (Except.error e, cache)
      | Except.ok res =>
          (Except.ok res,
           if ENABLE_CALLDATA_CACHE then (hashSig args, res) :: cache else cache)

/-- The part of a specialized `SlangFunction` that `CallData.__init__` reads
after specialization: its differentiability and its return type's full name. -/
structure SlangFnInfo where
  differentiable : Bool
  return_type_full_name : String
deriving DecidableEq, Repr

/-- The phases of `CallData.__init__` (calldata.py lines 127-214), in source
order, as recorded in a trace. -/
inductive Phase where
  | buildSignature
  | explicitVectorization
  | specializePhase
  | resultInject
  | bindPhase
  | implicitVectorizationPhase
  | callDimPhase
  | returnBindingPhase
  | finalizeMapPhase
  | validatePhase
  | diffCalcPhase
  | codegenPhase
  | compilePhase
deriving DecidableEq, Repr

/-- The kernel-generation exceptions `CallData.__init__` raises in its
specialization section. -/
inductive KGError where
  | mismatch (reason : String)
  | notDifferentiable
deriving DecidableEq, Repr

/-- Here `shouldInjectResult` is the condition of calldata.py line 148: a dummy
`_result` node is injected iff the call mode is primal, the caller passed no
`_result` keyword argument, and the specialized function's return type is
not `void`. -/
def shouldInjectResult (mode : CallMode) (kwargNames : List String)
    (returnTypeFullName : String) : Bool :=
  mode = CallMode.prim && !(kwargNames.contains "_result") && returnTypeFullName ≠ "void"

/-- Embeds calldata.py lines 147-150: the keyword-argument names of the
python call signature after the optional `_result` injection. -/
def injectResultNode (mode : CallMode) (kwargNames : List String)
    (returnTypeFullName : String) : List String :=
  if shouldInjectResult mode kwargNames returnTypeFullName then
    kwargNames ++ ["_result"]
  else
    kwargNames

/-- Embeds the control flow of `CallData.__init__` from signature building
through the pipeline (calldata.py lines 127-214): specialization may return
a `MismatchReason` (modelled `Except.error reason`), then the
differentiability gate `not slang_function.differentiable and call_mode !=
prim` raises, then the `_result` injection, binding, vectorization,
dimensionality, mapping finalization, validation, differentiability and code
generation run in order.  Phases after the gate are modelled as succeeding,
since the properties verified here concern the gate and what runs before it.
Returns the outcome together with the trace of phases that ran. -/
def callDataInit (mode : CallMode) (specResult : Except String SlangFnInfo)
    (kwargNames : List String) :
    Except KGError (SlangFnInfo × List String) × List Phase :=
  let tr0 : List Phase :=
    [Phase.buildSignature, Phase.explicitVectorization, Phase.specializePhase]
  match specResult with
  | Except.error reason => (Except.error (KGError.mismatch reason), tr0)
  | Except.ok fn =>
      if !fn.differentiable && mode ≠ CallMode.prim then
        (Except.error KGError.notDifferentiable, tr0)
      else
        let kwargsAfter := injectResultNode mode kwargNames fn.return_type_full_name
        (Except.ok (fn, kwargsAfter),
         tr0 ++ [Phase.resultInject, Phase.bindPhase,
                 Phase.implicitVectorizationPhase, Phase.callDimPhase,
                 Phase.returnBindingPhase, Phase.finalizeMapPhase,
                 Phase.validatePhase, Phase.diffCalcPhase,
                 Phase.codegenPhase, Phase.compilePhase])

/-- The structural view of a `PythonVariable` (`core/pythonvariable.py`):
only its `fields` matter to `BoundVariable.__init__` — `None` for a leaf
value, an insertion-ordered name-keyed dict (association list) for a
composite. -/
inductive PythonVar where
  | mk (fields : Option (List (String × PythonVar)))

/-- The structural view of a `SlangVariable` (`core/slangvariable.py`): its
`name` and its `fields` (`None` for a leaf parameter, a name-keyed dict for a
composite). -/
inductive SlangVar where
  | mk (name : String) (fields : Option (List (String × SlangVar)))

/-- The structural skeleton of a built `BoundVariable`: its variable name and
its optional named children. -/
inductive BoundTree where
  | mk (name : String) (children : Option (List (String × BoundTree)))

/-- Accessor for `PythonVar.fields`. -/
def PythonVar.fields : PythonVar → Option (List (String × PythonVar))
  | .mk f => f

/-- Accessor for `SlangVar.name`. -/
def SlangVar.name : SlangVar → String
  | .mk n _ => n

/-- Accessor for `SlangVar.fields`. -/
def SlangVar.fields : SlangVar → Option (List (String × SlangVar))
  | .mk _ f => f

/-- Accessor for `BoundTree.children`. -/
def BoundTree.children : BoundTree → Option (List (String × BoundTree))
  | .mk _ c => c

/-- Tests `python.fields is not None`. -/
def PythonVar.isComposite (p : PythonVar) : Bool := p.fields.isSome

/-- Tests `slang.fields is not None`. -/
def SlangVar.isComposite (s : SlangVar) : Bool := s.fields.isSome

/-- Tests `self.children is not None` on a built bound variable. -/
def BoundTree.hasChildren (t : BoundTree) : Bool := t.children.isSome

/-- The names of an association list, in order. -/
def namesOf {α : Type} (l : List (String × α)) : List String := l.map Prod.fst

/-- Python dict lookup `slang.fields[name]`, as first match (dict keys are
unique). -/
def lookupVar : List (String × SlangVar) → String → Option SlangVar
  | [], _ => Option.none
  | (k, v) :: rest, n => if k = n then some v else lookupVar rest n

/-- The exceptions `BoundVariable.__init__` can raise while building
children: the `assert slang.fields is not None` failure, and the `KeyError`
from `slang.fields[name]`. -/
inductive InitError where
  | assertionFailure
  | keyError (name : String)
deriving DecidableEq, Repr

mutual

/-- Embeds the child-building part of `BoundVariable.__init__`
(boundvariable.py lines 79-88): if the python value has fields, the slang
variable must also have fields (`assert`), and for each python field, in
order, the slang field of the same name is looked up (`KeyError` when
missing) and a child bound variable is built recursively.  Slang fields with
no python counterpart are never visited. -/
def boundVariableInit : PythonVar → SlangVar → Except InitError BoundTree
  | PythonVar.mk pf, s =>
    match pf with
    | Option.none => Except.ok (BoundTree.mk s.name Option.none)
    | some pfs =>
        match s.fields with
        | Option.none => Except.error InitError.assertionFailure
        | some sfs =>
            match boundVariableInitChildren pfs sfs with
            | Except.error e => Except.error e
            | Except.ok cs => Except.ok (BoundTree.mk s.name (some cs))

/-- The loop `for name, child_python in python.fields.items()` of
`BoundVariable.__init__`, building the children association list. -/
def boundVariableInitChildren :
    List (String × PythonVar) → List (String × SlangVar) →
    Except InitError (List (String × BoundTree))
  | [], _ => Except.ok []
  | (n, pc) :: rest, sfs =>
      match lookupVar sfs n with
      | Option.none => Except.error (InitError.keyError n)
      | some sc =>
          match boundVariableInit pc sc with
          | Except.error e => Except.error e
          | Except.ok t =>
              match boundVariableInitChildren rest sfs with
              | Except.error e => Except.error e
              | Except.ok ts => Except.ok ((n, t) :: ts)

end

/-! ## Theorems -/

/-- C1: for every `BoundVariable` and every combination of call mode in
{primal, backward}, io type in {in, out, inout} and differentiable flag,
`_calculate_differentiability` sets the (primal, derivative) access pair
exactly to the table of spec section 4.3: in primal mode (read, none) /
(write, none) / (readwrite, none) for in / out / inout regardless of the
differentiable flag; in backward mode (read, write) / (none, read) /
(read, readwrite) when differentiable and (read, none) / (none, none) /
(read, none) when not; and in forward mode both accesses are none. -/
theorem c1_access_table (v : BVNode) :
    ((v.calculateDifferentiabilityAccess CallMode.prim).access =
      (match v.slang_io_type with
       | IOType.inn => (AccessType.read, AccessType.none)
       | IOType.out => (AccessType.write, AccessType.none)
       | IOType.inout => (AccessType.readwrite, AccessType.none)))
    ∧ ((v.calculateDifferentiabilityAccess CallMode.bwds).access =
        if v.differentiable then
          (match v.slang_io_type with
           | IOType.inn => (AccessType.read, AccessType.write)
           | IOType.out => (AccessType.none, AccessType.read)
           | IOType.inout => (AccessType.read, AccessType.readwrite))
        else
          (match v.slang_io_type with
           | IOType.inn => (AccessType.read, AccessType.none)
           | IOType.out => (AccessType.none, AccessType.none)
           | IOType.inout => (AccessType.read, AccessType.none)))
    ∧ ((v.calculateDifferentiabilityAccess CallMode.fwds).access =
        (AccessType.none, AccessType.none)) := by
  obtain ⟨io, nd, der, pd, df, acc⟩ := v
  cases io <;> cases df <;> exact ⟨rfl, rfl, rfl⟩

/-- The method `_calculate_differentiability` only writes the access pair; the
`differentiable` flag is unchanged by it. -/
theorem calculateDifferentiabilityAccess_differentiable (v : BVNode) (mode : CallMode) :
    (v.calculateDifferentiabilityAccess mode).differentiable = v.differentiable := by
  unfold BVNode.calculateDifferentiabilityAccess
  repeat' split
  all_goals rfl

/-- C9: `calculate_differentiability` marks a node differentiable iff the
slang side is not `no_diff`, the slang side has a derivative type, and the
python side reports its value differentiable. -/
theorem c9_differentiable_flag (v : BVNode) (mode : CallMode) :
    ((v.calculateDifferentiability mode).differentiable =
      (!v.slang_no_diff && v.slang_derivative.isSome && v.python_differentiable))
    ∧ ((v.calculateDifferentiability mode).differentiable = true ↔
        v.slang_no_diff = false ∧ v.slang_derivative ≠ Option.none ∧
          v.python_differentiable = true) := by
  have heq : (v.calculateDifferentiability mode).differentiable =
      (!v.slang_no_diff && v.slang_derivative.isSome && v.python_differentiable) := by
    unfold BVNode.calculateDifferentiability
    rw [calculateDifferentiabilityAccess_differentiable]
  refine ⟨heq, ?_⟩
  rw [heq]
  simp [Bool.and_eq_true, Bool.not_eq_true', Option.isSome_iff_ne_none, and_assoc]

/-- Reversing the right-to-left default mapping construction of
`_finalize_mappings` yields the left-to-right arithmetic progression ending
at `D - 1`. -/
theorem reverse_map_range_sub (D : Int) (K : Nat) :
    ((List.range K).map (fun i : Nat => D - i - 1)).reverse =
      (List.range K).map (fun i : Nat => D - K + i) := by
  apply List.ext_getElem
  · simp
  · intro i h1 h2
    simp only [List.getElem_reverse, List.getElem_map, List.getElem_range,
      List.length_map, List.length_range, List.length_reverse] at h1 h2 ⊢
    omega

/-- C2: for overall call dimensionality `D` and a node whose contribution is
`K` (taken to be `D` while unknown) with `K ≤ D`, `_finalize_mappings`
assigns a node without a valid vector mapping exactly the mapping
`[D-K, D-K+1, …, D-1]`, and leaves a valid mapping unchanged. -/
theorem c2_default_mapping_right_aligned (D : Nat) (s : MapNodeState)
    (hK : s.call_dimensionality.getD D ≤ D) :
    ((s.vector_mapping = Option.none →
      (finalizeMappingsNode D s).vector_mapping =
        some ((List.range (s.call_dimensionality.getD D)).map
          (fun i : Nat => (D : Int) - (s.call_dimensionality.getD D) + i)))
    ∧ (∀ m, s.vector_mapping = some m →
        (finalizeMappingsNode D s).vector_mapping = some m)) := by
  constructor
  · intro hvm
    obtain ⟨cd, vm⟩ := s
    cases hvm
    cases cd <;>
      simp [finalizeMappingsNode, Option.getD, reverse_map_range_sub]
  · intro m hvm
    obtain ⟨cd, vm⟩ := s
    cases hvm
    cases cd <;> simp [finalizeMappingsNode]

/-- Witness for C2 at `D = 3`, contribution `K = 2`, no valid mapping: the
default mapping is `[1, 2]`. -/
theorem c2_default_mapping_right_aligned_witness :
    (finalizeMappingsNode 3 (MapNodeState.mk (some 2) Option.none)).vector_mapping =
      some ((List.range ((Option.some 2).getD 3)).map
        (fun i : Nat => (3 : Int) - ((Option.some 2).getD 3) + i)) :=
  (c2_default_mapping_right_aligned 3 (MapNodeState.mk (some 2) Option.none)
    (by decide)).1 rfl

/-- C3 counterexample: a leaf whose primal access is `write` against a
non-writable host value, at depth 1 in the binding tree, raises no error and
emits code — the writability check of `gen_call_data_code` fires only at
depth 0, so the claim's "regardless of the leaf's depth" is false. -/
theorem c3_counterexample_nested_leaf_emits :
    genCallDataCodeLeaf AccessType.write false [0] "v" 1 =
      Except.ok [EmitItem.calldata "v", EmitItem.mappingArray "v" [0]] ∧
    [EmitItem.calldata "v", EmitItem.mappingArray "v" [0]] ≠ ([] : List EmitItem) :=
  ⟨rfl, by decide⟩

/-- C3 (amended): for a leaf bound variable whose primal access is write or
readwrite and whose host value is non-writable, `gen_call_data_code` raises
an error and emits no code when the leaf is at depth 0 (a top-level
argument); at depth greater than 0 no error is raised and code is emitted. -/
theorem c3_nonwritable_root_raises (access0 : AccessType) (writable : Bool)
    (vm : List Nat) (name : String)
    (hacc : access0 = AccessType.write ∨ access0 = AccessType.readwrite)
    (hw : writable = false) :
    genCallDataCodeLeaf access0 writable vm name 0 =
      Except.error "Cannot read back value for non-writable type" ∧
    ∀ depth : Nat, 0 < depth → ∃ emits, emits ≠ ([] : List EmitItem) ∧
      genCallDataCodeLeaf access0 writable vm name depth = Except.ok emits := by
  subst hw
  constructor
  · rcases hacc with h | h <;> subst h <;> rfl
  · intro depth hdepth
    refine ⟨[EmitItem.calldata name] ++
      (if vm.length > 0 then [EmitItem.mappingArray name vm]
       else [EmitItem.mappingScalar name]) ++ [], ?_, ?_⟩
    · rcases Nat.decEq vm.length 0 with h | h <;> split <;> simp
    · have hd : (depth = 0) = False := by
        simp only [eq_iff_iff, iff_false]
        omega
      rcases hacc with h | h <;> subst h <;>
        simp [genCallDataCodeLeaf, hd] <;> rfl

/-- Witness for the amended C3 at a concrete leaf: `write` access, a
non-writable value, depth 0 raises, depth 1 emits. -/
theorem c3_nonwritable_root_raises_witness :
    genCallDataCodeLeaf AccessType.write false [0, 1] "buf" 0 =
      Except.error "Cannot read back value for non-writable type" :=
  (c3_nonwritable_root_raises AccessType.write false [0, 1] "buf"
    (Or.inl rfl) rfl).1

/-- C5: after `_apply_implicit_vectorization` completes on a node, its
call-dimensionality contribution is `max(mapping)+1` when the vector mapping
is valid and non-empty, `0` when valid and empty, and otherwise the
dimensionality the host type resolves to reach the final vector type. -/
theorem c5_call_dimensionality_contribution {Ty : Type} (slangPrimal : Ty)
    (reduceType : Nat → Option Ty) (resolveType : Ty → Option Ty)
    (resolveDimensionality : Ty → Nat) (s s' : IVState Ty)
    (h : applyImplicitVectorizationNode slangPrimal reduceType resolveType
      resolveDimensionality s = Except.ok s') :
    (∀ m, s.vector_mapping = some m → 0 < m.length →
        s'.call_dimensionality = some (listMax m + 1))
    ∧ (s.vector_mapping = some [] → s'.call_dimensionality = some 0)
    ∧ (s.vector_mapping = Option.none →
        ∃ t, s'.vector_type = some t ∧
          s'.call_dimensionality = some (resolveDimensionality t)) := by
  obtain ⟨svm, svt, scd, spath⟩ := s
  refine ⟨?_, ?_, ?_⟩
  · intro m hm hlen
    simp only at hm
    subst hm
    simp only [applyImplicitVectorizationNode, Option.isNone_some, Bool.false_and,
      if_neg Bool.false_ne_true, hlen, if_pos, Except.bind, pure, Except.pure,
      bind] at h
    simp only [Except.ok.injEq] at h
    subst h
    rfl
  · intro hm
    simp only at hm
    subst hm
    simp only [applyImplicitVectorizationNode, Option.isNone_some, Bool.false_and,
      if_neg Bool.false_ne_true, List.length_nil, gt_iff_lt, Nat.lt_irrefl,
      if_false, Except.bind, pure, Except.pure, bind] at h
    simp only [Except.ok.injEq] at h
    subst h
    rfl
  · intro hm
    simp only at hm
    subst hm
    cases hsvt : svt with
    | some t =>
        simp only [applyImplicitVectorizationNode, hsvt, Option.isNone_some,
          Option.isNone_none, Bool.true_and, Bool.and_false, Except.bind, pure,
          Except.pure, bind, if_neg Bool.false_ne_true] at h
        simp only [Except.ok.injEq] at h
        subst h
        exact ⟨t, rfl, rfl⟩
    | none =>
        by_cases hpath : spath = "_result"
        · subst hpath
          simp only [applyImplicitVectorizationNode, hsvt, Option.isNone_none,
            Bool.true_and, if_pos rfl, reduceCtorEq, reduceIte, Except.bind,
            pure, Except.pure, bind] at h
          simp only [Except.ok.injEq] at h
          subst h
          exact ⟨slangPrimal, rfl, rfl⟩
        · cases hres : resolveType slangPrimal with
          | some u =>
              simp only [applyImplicitVectorizationNode, hsvt, hpath,
                Option.isNone_none, Bool.true_and, if_neg hpath, hres,
                Option.isNone_some, Except.bind, pure, Except.pure, bind,
                if_neg Bool.false_ne_true, reduceIte] at h
              simp only [Except.ok.injEq] at h
              subst h
              exact ⟨u, rfl, rfl⟩
          | none =>
              simp only [applyImplicitVectorizationNode, hsvt, hpath,
                Option.isNone_none, Bool.true_and, if_neg hpath, hres,
                Except.bind, pure, Except.pure, bind, reduceIte,
                throw, throwThe, MonadExceptOf.throw] at h
              exact Except.noConfusion h

/-- Witness for C5 on a concrete node with no valid mapping and no prior
type: the type resolves against the slang primal and the contribution is the
resolved dimensionality. -/
theorem c5_call_dimensionality_contribution_witness :
    ∃ t : String,
      (IVState.mk Option.none (some "Q") (some 7) "x").vector_type = some t ∧
      (IVState.mk Option.none (some "Q") (some 7) "x").call_dimensionality =
        some ((fun _ : String => 7) t) :=
  (c5_call_dimensionality_contribution "T" (fun _ => some "R") (fun _ => some "Q")
    (fun _ => 7) (IVState.mk Option.none Option.none Option.none "x")
    (IVState.mk Option.none (some "Q") (some 7) "x") rfl).2.2 rfl

/-- When the construction pipeline raises, `_build_call_data` stores nothing:
the cache comes back unchanged. -/
theorem buildCallData_error_cache_unchanged {A C E : Type} (hashSig : A → String)
    (construct : A → Except E C) (cache : List (String × C)) (args : A) (e : E)
    (h : construct args = Except.error e) :
    (buildCallData hashSig construct cache args).2 = cache := by
  unfold buildCallData
  cases hlk : (if ENABLE_CALLDATA_CACHE then cacheLookup cache (hashSig args)
      else Option.none) with
  | some cd => rfl
  | none => rw [h]

/-- Looking up the signature just inserted at the front of the cache finds
its entry. -/
theorem cacheLookup_insert_self {C : Type} (cache : List (String × C))
    (sig : String) (c : C) : cacheLookup ((sig, c) :: cache) sig = some c := by
  simp [cacheLookup]

/-- C7: once `_build_call_data` has produced a `CallData` for a signature,
any later invocation whose arguments hash to the same structural signature
returns that identical cached object with the cache unchanged — whatever
construction pipeline the later invocation would have run (no
re-resolution). -/
theorem c7_cache_idempotent {A C E : Type} (hashSig : A → String)
    (construct : A → Except E C) (cache cache' : List (String × C)) (a : A)
    (c : C)
    (h : buildCallData hashSig construct cache a = (Except.ok c, cache')) :
    ∀ (construct2 : A → Except E C) (b : A), hashSig b = hashSig a →
      buildCallData hashSig construct2 cache' b = (Except.ok c, cache') := by
  intro construct2 b hb
  unfold buildCallData at h ⊢
  simp only [ENABLE_CALLDATA_CACHE, if_true] at h ⊢
  rw [hb]
  cases hlk : cacheLookup cache (hashSig a) with
  | some cd =>
      rw [hlk] at h
      simp only [Prod.mk.injEq, Except.ok.injEq] at h
      obtain ⟨hcd, hcache⟩ := h
      subst hcd
      subst hcache
      rw [hlk]
  | none =>
      rw [hlk] at h
      cases hcon : construct a with
      | error e =>
          rw [hcon] at h
          simp at h
      | ok res =>
          rw [hcon] at h
          simp only [Prod.mk.injEq, Except.ok.injEq] at h
          obtain ⟨hres, hcache⟩ := h
          subst hres
          rw [← hcache, cacheLookup_insert_self]

/-- Witness for C7: a first call populates the cache; a second call with the
same signature returns the same object even though its pipeline would fail. -/
theorem c7_cache_idempotent_witness :
    buildCallData (fun _ : Unit => "sig") (fun _ => Except.error "boom")
      [("sig", (5 : Nat))] () = (Except.ok (5 : Nat), [("sig", (5 : Nat))]) :=
  c7_cache_idempotent (fun _ : Unit => "sig") (fun _ => Except.ok (5 : Nat))
    [] [("sig", (5 : Nat))] () 5 rfl (fun _ => Except.error "boom") () rfl

/-- C8: a call-cache entry is inserted only after construction succeeds: if
the pipeline raises on an uncached signature, the error propagates and the
cache is unchanged, and a later call with the same arguments re-runs the
pipeline from scratch (succeeding and inserting if that run succeeds). -/
theorem c8_cache_insert_only_on_success {A C E : Type} (hashSig : A → String)
    (construct : A → Except E C) (cache : List (String × C)) (a : A) (e : E)
    (hmiss : cacheLookup cache (hashSig a) = Option.none)
    (herr : construct a = Except.error e) :
    buildCallData hashSig construct cache a = (Except.error e, cache)
    ∧ ∀ (construct2 : A → Except E C) (c2 : C), construct2 a = Except.ok c2 →
        buildCallData hashSig construct2 cache a =
          (Except.ok c2, (hashSig a, c2) :: cache) := by
  constructor
  · unfold buildCallData
    simp only [ENABLE_CALLDATA_CACHE, if_true, hmiss, herr]
  · intro construct2 c2 hok
    unfold buildCallData
    simp only [ENABLE_CALLDATA_CACHE, if_true, hmiss, hok]

/-- Witness for C8: a failing pipeline on an empty cache leaves it empty, and
the retry with a working pipeline succeeds and inserts. -/
theorem c8_cache_insert_only_on_success_witness :
    buildCallData (fun _ : Unit => "sig") (fun _ => Except.error "boom")
      ([] : List (String × Nat)) () = (Except.error "boom", []) ∧
    buildCallData (fun _ : Unit => "sig")
      (fun _ => (Except.ok (9 : Nat) : Except String Nat)) [] () =
      (Except.ok (9 : Nat), [("sig", (9 : Nat))]) :=
  ⟨(c8_cache_insert_only_on_success (fun _ : Unit => "sig")
      (fun _ => Except.error "boom") [] () "boom" rfl rfl).1,
   (c8_cache_insert_only_on_success (fun _ : Unit => "sig")
      (fun _ => Except.error "boom") [] () "boom" rfl rfl).2
      (fun _ => (Except.ok (9 : Nat) : Except String Nat)) 9 rfl⟩

/-- C6: a backward-mode call against a non-differentiable specialized
overload makes `CallData.__init__` raise the differentiability error after
specialization and before `bind` (no binding tree is built), no code
generation phase runs, and — for any call signature and cache state — the
construction failure leaves the call cache unchanged. -/
theorem c6_backward_nondifferentiable_gate (fn : SlangFnInfo)
    (kwargNames : List String) (hdiff : fn.differentiable = false) :
    (callDataInit CallMode.bwds (Except.ok fn) kwargNames).1 =
        Except.error KGError.notDifferentiable
    ∧ Phase.bindPhase ∉ (callDataInit CallMode.bwds (Except.ok fn) kwargNames).2
    ∧ Phase.codegenPhase ∉ (callDataInit CallMode.bwds (Except.ok fn) kwargNames).2
    ∧ ∀ {A : Type} (hashSig : A → String) (cache : List (String × Nat)) (a : A),
        (buildCallData hashSig
          (fun _ : A => ((callDataInit CallMode.bwds (Except.ok fn) kwargNames).1.map
            (fun _ => (0 : Nat))))
          cache a).2 = cache := by
  have hgate : (callDataInit CallMode.bwds (Except.ok fn) kwargNames) =
      (Except.error KGError.notDifferentiable,
       [Phase.buildSignature, Phase.explicitVectorization, Phase.specializePhase]) := by
    simp [callDataInit, hdiff]
  refine ⟨?_, ?_, ?_, ?_⟩
  · rw [hgate]
  · rw [hgate]
    decide
  · rw [hgate]
    decide
  · intro A hashSig cache a
    apply buildCallData_error_cache_unchanged _ _ _ _ KGError.notDifferentiable
    rw [hgate]
    rfl

/-- Witness for C6 at a concrete non-differentiable overload: the pipeline
errors and an empty cache stays empty. -/
theorem c6_backward_nondifferentiable_gate_witness :
    (callDataInit CallMode.bwds (Except.ok (SlangFnInfo.mk false "float")) []).1 =
        Except.error KGError.notDifferentiable
    ∧ (buildCallData (fun _ : Unit => "sig")
        (fun _ : Unit => ((callDataInit CallMode.bwds
          (Except.ok (SlangFnInfo.mk false "float")) []).1.map (fun _ => (0 : Nat))))
        [] ()).2 = [] :=
  ⟨(c6_backward_nondifferentiable_gate (SlangFnInfo.mk false "float") [] rfl).1,
   (c6_backward_nondifferentiable_gate (SlangFnInfo.mk false "float") [] rfl).2.2.2
     (fun _ : Unit => "sig") [] ()⟩

/-- C10: the synthetic `_result` keyword node is added to the python call
signature iff the call mode is primal, the caller passed no `_result`
keyword argument, and the specialized function's return type is not `void`;
otherwise the keyword arguments are unchanged. -/
theorem c10_result_injection (mode : CallMode) (kwargNames : List String)
    (rt : String) :
    (injectResultNode mode kwargNames rt = kwargNames ++ ["_result"] ↔
      mode = CallMode.prim ∧ "_result" ∉ kwargNames ∧ rt ≠ "void")
    ∧ (¬(mode = CallMode.prim ∧ "_result" ∉ kwargNames ∧ rt ≠ "void") →
        injectResultNode mode kwargNames rt = kwargNames) := by
  have hcond : shouldInjectResult mode kwargNames rt = true ↔
      (mode = CallMode.prim ∧ "_result" ∉ kwargNames ∧ rt ≠ "void") := by
    simp [shouldInjectResult, List.elem_iff, and_assoc]
  by_cases hc : shouldInjectResult mode kwargNames rt = true
  · constructor
    · rw [injectResultNode, if_pos hc]
      simp only [true_iff]
      exact hcond.mp hc
    · intro hn
      exact absurd (hcond.mp hc) hn
  · constructor
    · rw [injectResultNode, if_neg hc]
      constructor
      · intro heq
        have := congrArg List.length heq
        simp at this
      · intro hp
        exact absurd (hcond.mpr hp) hc
    · intro _
      rw [injectResultNode, if_neg hc]

/-- Witness for C10: in primal mode with no `_result` argument and a
non-void return type the node is injected; in backward mode it is not. -/
theorem c10_result_injection_witness :
    injectResultNode CallMode.prim [] "float" = [] ++ ["_result"]
    ∧ injectResultNode CallMode.bwds [] "float" = [] :=
  ⟨(c10_result_injection CallMode.prim [] "float").1.mpr
      ⟨rfl, by decide, by decide⟩,
   (c10_result_injection CallMode.bwds [] "float").2
      (fun hp => CallMode.noConfusion hp.1)⟩

/-- When the child-building loop of `BoundVariable.__init__` succeeds, the
bound children carry exactly the python-side field names, in order, and each
of those names has a slang-side field. -/
theorem boundVariableInitChildren_ok (pfs : List (String × PythonVar)) :
    ∀ (sfs : List (String × SlangVar)) (ts : List (String × BoundTree)),
      boundVariableInitChildren pfs sfs = Except.ok ts →
      namesOf ts = namesOf pfs ∧
        ∀ n, n ∈ namesOf pfs → (lookupVar sfs n).isSome = true := by
  induction pfs with
  | nil =>
      intro sfs ts h
      simp only [boundVariableInitChildren, Except.ok.injEq] at h
      subst h
      refine ⟨rfl, ?_⟩
      intro n hn
      simp [namesOf] at hn
  | cons hd tl ih =>
      obtain ⟨n0, pc⟩ := hd
      intro sfs ts h
      simp only [boundVariableInitChildren] at h
      cases hlk : lookupVar sfs n0 with
      | none =>
          simp only [hlk] at h
          exact Except.noConfusion h
      | some sc =>
          simp only [hlk] at h
          cases hbi : boundVariableInit pc sc with
          | error e =>
              simp only [hbi] at h
              exact Except.noConfusion h
          | ok t =>
              simp only [hbi] at h
              cases hre : boundVariableInitChildren tl sfs with
              | error e =>
                  simp only [hre] at h
                  exact Except.noConfusion h
              | ok ts' =>
                  simp only [hre] at h
                  simp only [Except.ok.injEq] at h
                  subst h
                  obtain ⟨hnames, hmem⟩ := ih sfs ts' hre
                  constructor
                  · simp only [namesOf, List.map_cons]
                    simp only [namesOf] at hnames
                    rw [hnames]
                  · intro n hn
                    simp only [namesOf, List.map_cons, List.mem_cons] at hn
                    rcases hn with hn | hn
                    · subst hn
                      rw [hlk]
                      rfl
                    · exact hmem n hn

/-- C4 counterexample: a host node with fields `{a}` paired against a kernel
node with fields `{a, b}` builds successfully — child names `[a]` against
kernel field names `[a, b]` — so the two child-name sets differ and no error
of any kind is raised, contradicting the claim that a mismatch between the
child-name sets raises a `GenerationError` before code is emitted. -/
theorem c4_counterexample_extra_kernel_field :
    boundVariableInit
        (PythonVar.mk (some [("a", PythonVar.mk Option.none)]))
        (SlangVar.mk "x" (some [("a", SlangVar.mk "a" Option.none),
                                 ("b", SlangVar.mk "b" Option.none)]))
      = Except.ok (BoundTree.mk "x" (some [("a", BoundTree.mk "a" Option.none)]))
    ∧ namesOf [("a", BoundTree.mk "a" Option.none)] ≠
        namesOf [("a", SlangVar.mk "a" Option.none),
                 ("b", SlangVar.mk "b" Option.none)] :=
  ⟨rfl, by decide⟩

/-- C4 (amended): for every successfully constructed `BoundVariable`,
children exist iff the host-side node is composite, in which case the
kernel-side node is composite too; the child name set equals the host-side
node's field names, each of which also names a kernel-side field; a
host-side field name missing from the kernel-side node raises an error
(python `KeyError`, not a `GenerationError`) during construction, while
extra kernel-side fields are silently ignored. -/
theorem c4_child_structure :
    (∀ p s t, boundVariableInit p s = Except.ok t →
      t.hasChildren = p.isComposite
      ∧ (p.isComposite = true → s.isComposite = true)
      ∧ ∀ pfs sfs, p.fields = some pfs → s.fields = some sfs →
          ∃ cs, t.children = some cs ∧ namesOf cs = namesOf pfs ∧
            ∀ n, n ∈ namesOf pfs → (lookupVar sfs n).isSome = true)
    ∧ (∀ (pfs : List (String × PythonVar)) (sfs : List (String × SlangVar))
         (sname : String) (n : String),
        n ∈ namesOf pfs → lookupVar sfs n = Option.none →
        ∃ e, boundVariableInit (PythonVar.mk (some pfs))
          (SlangVar.mk sname (some sfs)) = Except.error e) := by
  constructor
  · intro p s t h
    obtain ⟨pf⟩ := p
    obtain ⟨sn, sf⟩ := s
    cases pf with
    | none =>
        simp only [boundVariableInit, Except.ok.injEq] at h
        subst h
        refine ⟨rfl, ?_, ?_⟩
        · intro hc
          exact absurd hc (by simp [PythonVar.isComposite, PythonVar.fields])
        · intro pfs sfs hpf
          exact absurd hpf (by simp [PythonVar.fields])
    | some pfs0 =>
        cases sf with
        | none =>
            simp only [boundVariableInit, SlangVar.fields] at h
            exact Except.noConfusion h
        | some sfs0 =>
            simp only [boundVariableInit, SlangVar.fields, SlangVar.name] at h
            cases hcs : boundVariableInitChildren pfs0 sfs0 with
            | error e =>
                simp only [hcs] at h
                exact Except.noConfusion h
            | ok cs =>
                simp only [hcs] at h
                simp only [Except.ok.injEq] at h
                subst h
                refine ⟨rfl, fun _ => rfl, ?_⟩
                intro pfs sfs hpf hsf
                simp only [PythonVar.fields, Option.some.injEq] at hpf
                simp only [SlangVar.fields, Option.some.injEq] at hsf
                subst hpf
                subst hsf
                obtain ⟨hnames, hmem⟩ := boundVariableInitChildren_ok pfs0 sfs0 cs hcs
                exact ⟨cs, rfl, hnames, hmem⟩
  · intro pfs sfs sname n hn hlk
    cases hcs : boundVariableInitChildren pfs sfs with
    | error e =>
        refine ⟨e, ?_⟩
        simp only [boundVariableInit, SlangVar.fields, SlangVar.name]
        simp only [hcs]
    | ok cs =>
        obtain ⟨_, hmem⟩ := boundVariableInitChildren_ok pfs sfs cs hcs
        have := hmem n hn
        rw [hlk] at this
        exact Bool.noConfusion this

/-- Witness for the amended C4 on a concrete composite pairing. -/
theorem c4_child_structure_witness :
    ∃ cs, (BoundTree.mk "x" (some [("a", BoundTree.mk "a" Option.none)])).children
        = some cs ∧
      namesOf cs = namesOf [("a", PythonVar.mk Option.none)] ∧
      ∀ n, n ∈ namesOf [("a", PythonVar.mk Option.none)] →
        (lookupVar [("a", SlangVar.mk "a" Option.none)] n).isSome = true :=
  (c4_child_structure.1
      (PythonVar.mk (some [("a", PythonVar.mk Option.none)]))
      (SlangVar.mk "x" (some [("a", SlangVar.mk "a" Option.none)]))
      (BoundTree.mk "x" (some [("a", BoundTree.mk "a" Option.none)])) rfl).2.2
    [("a", PythonVar.mk Option.none)] [("a", SlangVar.mk "a" Option.none)] rfl rfl

end KernelFunctions
